import Mathlib

/-!
Shallow embedding of the near-sdk-sim standalone runtime (`runtime.rs`) and its
compiled-contract cache (`cache.rs`), with proofs about the embedded operations.
External collaborators (the Engine's state-transition function, the trie
internals of the Store, the transaction pool's lane policy, borsh
serialization of the external `CompiledContract` type, and the base-58
encoder) are modelled as explicit parameters or small concrete stand-ins, as
noted on each definition.  Machine integers are modelled as `Nat`; none of the
embedded arithmetic can overflow in the scenarios covered by the claims.
-/

/-- Association-list lookup, modelling `HashMap` lookups of `runtime.rs` and
`cache.rs` as well as trie lookups. -/
def mapLookup {κ α : Type} [DecidableEq κ] : List (κ × α) → κ → Option α
  | [], _ => none
  | (k1, v) :: rest, k => if k1 = k then some v else mapLookup rest k

/-- Association-list insert, modelling `HashMap::insert` (an insert replaces
any previous binding of the key). -/
def mapInsert {κ α : Type} [DecidableEq κ] (m : List (κ × α)) (k : κ) (v : α) :
    List (κ × α) :=
  (k, v) :: m.filter (fun p => !decide (p.1 = k))

theorem mapLookup_mapInsert_self {κ α : Type} [DecidableEq κ]
    (m : List (κ × α)) (k : κ) (v : α) :
    mapLookup (mapInsert m k v) k = some v := by
  simp [mapInsert, mapLookup]

theorem mapLookup_filter_ne {κ α : Type} [DecidableEq κ]
    (m : List (κ × α)) (k k2 : κ) (hne : k2 ≠ k) :
    mapLookup (m.filter (fun p => !decide (p.1 = k))) k2 = mapLookup m k2 := by
  induction m with
  | nil => rfl
  | cons p rest ih =>
    obtain ⟨pk, pv⟩ := p
    by_cases hp : pk = k
    · subst hp
      have hk2 : pk ≠ k2 := fun h => hne h.symm
      simp [List.filter_cons, mapLookup, hk2, ih]
    · simp only [List.filter_cons]
      by_cases hk2 : pk = k2
      · subst hk2
        simp [mapLookup, hp]
      · simp [mapLookup, hp, hk2, ih]

theorem mapLookup_mapInsert_ne {κ α : Type} [DecidableEq κ]
    (m : List (κ × α)) (k k2 : κ) (v : α) (hne : k2 ≠ k) :
    mapLookup (mapInsert m k v) k2 = mapLookup m k2 := by
  have hk : k ≠ k2 := fun h => hne h.symm
  simp only [mapInsert, mapLookup, hk, if_false]
  exact mapLookup_filter_ne m k k2 hne


/-! ## Basic chain types (`runtime.rs`) -/

/-- `CryptoHash` is an opaque 32-byte identifier; modelled as `Nat`. -/
abbrev CryptoHash := Nat

abbrev Balance := Nat

abbrev Gas := Nat

abbrev EpochHeight := Nat

abbrev BlockHeight := Nat

/-- Account ids are strings (`near_primitives::types::AccountId`). -/
abbrev AccountId := String

/-- The fields of `near_primitives::account::Account` that the harness and its
tests read (amount, locked, code hash, storage usage). -/
structure Account where
  amount : Balance
  locked : Balance
  codeHash : CryptoHash
  storageUsage : Nat
deriving DecidableEq, Repr

/-- `near_primitives::transaction::ExecutionStatus`. -/
inductive ExecutionStatus where
  | unknown
  | successReceiptId (id : CryptoHash)
  | successValue (v : List Nat)
  | failure (e : Nat)
deriving DecidableEq, Repr

/-- `ExecutionMetadata`: V1 carries no profile, V2 carries profiling data
(the external `ProfileData` is modelled as a `Nat`). -/
inductive ExecutionMetadata where
  | v1
  | v2 (profileData : Nat)
deriving DecidableEq, Repr

/-- The part of `ExecutionOutcome` the harness inspects: its status and its
metadata. -/
structure ExecutionOutcome where
  status : ExecutionStatus
  metadata : ExecutionMetadata
deriving DecidableEq, Repr

/-- A signed transaction, opaque to the harness except for its hash
(`tx.get_hash()` after `tx.init()`). -/
structure SignedTransaction where
  hash : CryptoHash
deriving DecidableEq, Repr

/-- Receipts are opaque to the harness; modelled by an id. -/
abbrev Receipt := Nat

/-- `near_primitives::errors::RuntimeError`, opaque to the harness; modelled
by an error code. -/
structure RuntimeError where
  code : Nat
deriving DecidableEq, Repr

/-- The `GenesisConfig` fields read by the embedded operations
(`runtime_config`, `state_records` and `validators` belong to external
collaborators and are not read by any embedded operation). -/
structure GenesisConfig where
  genesisTime : Nat
  gasPrice : Balance
  gasLimit : Gas
  genesisHeight : Nat
  epochLength : Nat
  blockProdTime : Nat
deriving DecidableEq, Repr

/-- `Block` from `runtime.rs`: a snapshot holding a shared reference to its
predecessor.  An inductive type, since the Rust struct is recursive through
`Option (Arc Block)`. -/
inductive Block where
  | mk (prevBlock : Option Block) (stateRoot : CryptoHash) (gasBurnt : Gas)
      (epochHeight : EpochHeight) (blockHeight : BlockHeight)
      (blockTimestamp : Nat) (gasPrice : Balance) (gasLimit : Gas)

def Block.prevBlock : Block → Option Block
  | .mk p _ _ _ _ _ _ _ => p

def Block.stateRoot : Block → CryptoHash
  | .mk _ r _ _ _ _ _ _ => r

def Block.gasBurnt : Block → Gas
  | .mk _ _ g _ _ _ _ _ => g

def Block.epochHeight : Block → EpochHeight
  | .mk _ _ _ e _ _ _ _ => e

def Block.blockHeight : Block → BlockHeight
  | .mk _ _ _ _ h _ _ _ => h

def Block.blockTimestamp : Block → Nat
  | .mk _ _ _ _ _ t _ _ => t

def Block.gasPrice : Block → Balance
  | .mk _ _ _ _ _ _ p _ => p

def Block.gasLimit : Block → Gas
  | .mk _ _ _ _ _ _ _ l => l

/-- Overwrite the `state_root` field (used by `RuntimeStandalone::new` for the
genesis block and by `force_account_update`). -/
def Block.withStateRoot : Block → CryptoHash → Block
  | .mk p _ g e h t gp gl, root => .mk p root g e h t gp gl

/-- `Block::genesis`: height `genesis_height`, epoch height 0, zero state
root, no predecessor. -/
def Block.genesis (genesisConfig : GenesisConfig) : Block :=
  .mk none 0 0 0 genesisConfig.genesisHeight genesisConfig.genesisTime
    genesisConfig.gasPrice genesisConfig.gasLimit

/-- `Block::produce`: one height higher, epoch height recomputed by integer
division, timestamp advanced, gas burnt reset, predecessor captured. -/
def Block.produce (b : Block) (newStateRoot : CryptoHash) (epochLength : Nat)
    (blockProdTime : Nat) : Block :=
  .mk (some b) newStateRoot 0 ((b.blockHeight + 1) / epochLength)
    (b.blockHeight + 1) (b.blockTimestamp + blockProdTime) b.gasPrice b.gasLimit

/-- Iterated `Block::produce`: the chain of current blocks obtained by
producing `n` blocks, with the per-block state roots supplied by `roots`
(state roots come from the external Engine and do not affect heights). -/
def Block.produceN (roots : Nat → CryptoHash) (epochLength blockProdTime : Nat)
    (b : Block) : Nat → Block
  | 0 => b
  | n + 1 =>
    (Block.produceN roots epochLength blockProdTime b n).produce (roots n)
      epochLength blockProdTime

theorem Block.produce_blockHeight (b : Block) (root epochLength blockProdTime : Nat) :
    (b.produce root epochLength blockProdTime).blockHeight = b.blockHeight + 1 := rfl

theorem Block.produce_epochHeight (b : Block) (root epochLength blockProdTime : Nat) :
    (b.produce root epochLength blockProdTime).epochHeight
      = (b.blockHeight + 1) / epochLength := rfl

theorem Block.produceN_blockHeight (roots : Nat → CryptoHash)
    (epochLength blockProdTime : Nat) (b : Block) (n : Nat) :
    (Block.produceN roots epochLength blockProdTime b n).blockHeight
      = b.blockHeight + n := by
  induction n with
  | zero => rfl
  | succ n ih =>
    show ((Block.produceN roots epochLength blockProdTime b n).produce (roots n)
        epochLength blockProdTime).blockHeight = b.blockHeight + (n + 1)
    rw [Block.produce_blockHeight, ih, Nat.add_assoc]

theorem Block.genesis_blockHeight (cfg : GenesisConfig) :
    (Block.genesis cfg).blockHeight = cfg.genesisHeight := rfl

theorem Block.genesis_epochHeight (cfg : GenesisConfig) :
    (Block.genesis cfg).epochHeight = 0 := rfl

/-- Claim C2 (amended): for every genesis configuration with epoch length
L ≥ 1, producing N blocks from the genesis block at height H yields a current
block of height H + N; every *produced* block (N ≥ 1) has epoch height
(H + N) / L (integer division), and production always raises the height by
exactly 1 — but the genesis block itself has epoch height 0, not H / L. -/
theorem produce_blocks_height_epoch (cfg : GenesisConfig)
    (roots : Nat → CryptoHash) (n : Nat) (hL : 1 ≤ cfg.epochLength) :
    (Block.produceN roots cfg.epochLength cfg.blockProdTime
        (Block.genesis cfg) n).blockHeight = cfg.genesisHeight + n
    ∧ (1 ≤ n →
        (Block.produceN roots cfg.epochLength cfg.blockProdTime
            (Block.genesis cfg) n).epochHeight
          = (cfg.genesisHeight + n) / cfg.epochLength)
    ∧ (∀ (b : Block) (root : CryptoHash),
        (b.produce root cfg.epochLength cfg.blockProdTime).blockHeight
          = b.blockHeight + 1)
    ∧ (Block.genesis cfg).epochHeight = 0 := by
  refine ⟨?_, ?_, fun b root => rfl, rfl⟩
  · rw [Block.produceN_blockHeight, Block.genesis_blockHeight]
  · intro hn
    obtain ⟨m, rfl⟩ : ∃ m, n = m + 1 := ⟨n - 1, by omega⟩
    show ((Block.produceN roots cfg.epochLength cfg.blockProdTime
        (Block.genesis cfg) m).produce (roots m) cfg.epochLength
          cfg.blockProdTime).epochHeight
      = (cfg.genesisHeight + (m + 1)) / cfg.epochLength
    rw [Block.produce_epochHeight, Block.produceN_blockHeight,
      Block.genesis_blockHeight, Nat.add_assoc]

/-- Witness for `produce_blocks_height_epoch` at the spec's concrete instance:
genesis height 1, epoch length 3, five produced blocks give height 6 and epoch
height 2. -/
theorem produce_blocks_height_epoch_witness :
    (Block.produceN (fun _ => 0) 3 1000000000
        (Block.genesis
          { genesisTime := 0, gasPrice := 100000000, gasLimit := 300000000000000,
            genesisHeight := 1, epochLength := 3, blockProdTime := 1000000000 })
        5).blockHeight = 1 + 5
    ∧ (Block.produceN (fun _ => 0) 3 1000000000
        (Block.genesis
          { genesisTime := 0, gasPrice := 100000000, gasLimit := 300000000000000,
            genesisHeight := 1, epochLength := 3, blockProdTime := 1000000000 })
        5).epochHeight = (1 + 5) / 3 :=
  ⟨(produce_blocks_height_epoch
      { genesisTime := 0, gasPrice := 100000000, gasLimit := 300000000000000,
        genesisHeight := 1, epochLength := 3, blockProdTime := 1000000000 }
      (fun _ => 0) 5 (by decide)).1,
   (produce_blocks_height_epoch
      { genesisTime := 0, gasPrice := 100000000, gasLimit := 300000000000000,
        genesisHeight := 1, epochLength := 3, blockProdTime := 1000000000 }
      (fun _ => 0) 5 (by decide)).2.1 (by decide)⟩

/-- Claim C2 (counterexample): with genesis height 3 and epoch length 3, the
genesis block (the N = 0 case of the claim) has epoch height 0, while the
claim demands (3 + 0) / 3 = 1. -/
theorem genesis_epoch_height_counterexample :
    (Block.produceN (fun _ => 0) 3 1000000000
        (Block.genesis
          { genesisTime := 0, gasPrice := 100000000, gasLimit := 300000000000000,
            genesisHeight := 3, epochLength := 3, blockProdTime := 1000000000 })
        0).epochHeight ≠ (3 + 0) / 3 := by
  decide

/-! ## Compiled-contract cache (`cache.rs`)

The cache's key type is the raw bytes of a `CryptoHash`; bytes are modelled
as `Nat`.  The external `CompiledContract` value is modelled by its payload
bytes, and borsh serialization by a concrete injective length-prefixed codec
(`try_to_vec` / `try_from_slice`): the embedding only relies on the codec
being injective and on deserialization being able to fail on malformed input,
both true of borsh.  The filesystem is a map from path to contents plus
fault-injection flags, one per fallible filesystem call in the source, so the
error paths of `put` and `get` can be exercised. -/

abbrev Key := List Nat

abbrev CompiledContract := List Nat

/-- Stand-in for `BorshSerialize::try_to_vec` on the external
`CompiledContract`: a length-prefixed, injective byte encoding. -/
def try_to_vec (value : CompiledContract) : List Nat :=
  value.length :: value

/-- Stand-in for `BorshDeserialize::try_from_slice`: fails on malformed
input (as borsh does), inverse of `try_to_vec` on well-formed input. -/
def try_from_slice (bytes : List Nat) : Except String CompiledContract :=
  match bytes with
  | [] => .error "failed to deserialize"
  | n :: rest => if rest.length = n then .ok rest else .error "failed to deserialize"

/-- Stand-in for the external base-58 encoder `key_to_b58`: turns the raw key
bytes into a file name. -/
def key_to_b58 (key : Key) : String :=
  String.intercalate "x" (key.map (fun b => toString b))

/-- The ambient process environment (`std::env::var`). -/
abbrev Env := List (String × String)

/-- The filesystem, as seen through the calls `cache.rs` makes: a map from
path to file contents, plus one fault flag per fallible call so that each
error path of the source can be exercised. -/
structure Fs where
  files : List (String × List Nat)
  dirCreateFails : Bool := false
  openFails : Bool := false
  metadataFails : Bool := false
  writeFails : Bool := false
  readFails : Bool := false
deriving DecidableEq, Repr

/-- `ContractCache`: the in-memory mapping (the `Arc Mutex` wrapper is
irrelevant under the harness's single logical thread). -/
structure ContractCache where
  data : List (Key × CompiledContract)
deriving DecidableEq, Repr

/-- Result of a Rust call that can return `Ok`, return `Err(io::Error)`, or
panic.  `ok` and `err` carry the post-call cache and filesystem (the cache is
behind `&self`, so mutations made before an early `Err` return persist);
`panicked` aborts the process. -/
inductive CacheResult (α : Type) where
  | ok (value : α) (cache : ContractCache) (fs : Fs)
  | err (e : String) (cache : ContractCache) (fs : Fs)
  | panicked (msg : String)
deriving DecidableEq, Repr

/-- Result of an infallible-in-Rust call that can nevertheless panic. -/
inductive PureResult (α : Type) where
  | ok (value : α)
  | panicked (msg : String)
deriving DecidableEq, Repr

/-- Result of `ContractCache::open_file`: the opened per-key path and the
filesystem after the open, an `io::Result` error, or a panic. -/
inductive OpenResult where
  | ok (path : String) (fs : Fs)
  | err (e : String)
  | panicked (msg : String)
deriving DecidableEq, Repr

/-- `ContractCache::path`: reads the `CARGO_MANIFEST_DIR` environment variable
of the ambient process (panicking via `unwrap` when it is unset) and appends
`target/contract_cache`. -/
def ContractCache.path (env : Env) : PureResult String :=
  match mapLookup env "CARGO_MANIFEST_DIR" with
  | some s => .ok (s ++ "/target/contract_cache")
  | none => .panicked "called Result unwrap on an Err value"

/-- `ContractCache::get_path`: the cache-root path joined with the base-58
encoded key. -/
def ContractCache.get_path (env : Env) (key : Key) : PureResult String :=
  match ContractCache.path env with
  | .ok p => .ok (p ++ "/" ++ key_to_b58 key)
  | .panicked m => .panicked m

/-- `ContractCache::file_exists`: whether the per-key file exists. -/
def ContractCache.file_exists (env : Env) (fs : Fs) (key : Key) : PureResult Bool :=
  match ContractCache.get_path env key with
  | .ok p => .ok ((mapLookup fs.files p).isSome)
  | .panicked m => .panicked m

/-- `ContractCache::open_file`: `create_dir_all` on the parent directory with
`unwrap` (a failure there panics), then `OpenOptions` read/write/create
(creating an empty file when absent); an open failure is an `io::Result`
error. -/
def ContractCache.open_file (env : Env) (fs : Fs) (key : Key) : OpenResult :=
  match ContractCache.get_path env key with
  | .panicked m => .panicked m
  | .ok p =>
    if fs.dirCreateFails then .panicked "called Result unwrap on an Err value"
    else if fs.openFails then .err "failed to open file"
    else
      match mapLookup fs.files p with
      | some _ => .ok p fs
      | none => .ok p { fs with files := mapInsert fs.files p [] }

/-- `CompiledContractCache::put` for `ContractCache`: write-through into the
in-memory mapping, open the per-key file with `.expect` (panicking when the
open fails), read its length via `metadata()?`, serialize the value, and
write the serialization — from offset 0, without truncation, so a longer old
file keeps its tail — only when the file length differs from the
serialization length. -/
def ContractCache.put (env : Env) (c : ContractCache) (fs : Fs) (key : Key)
    (value : CompiledContract) : CacheResult Unit :=
  let c1 : ContractCache := { data := mapInsert c.data key value }
  match ContractCache.open_file env fs key with
  | .panicked m => .panicked m
  | .err _ => .panicked "File failed to open"
  | .ok p fs1 =>
    if fs1.metadataFails then .err "failed to read metadata" c1 fs1
    else
      let contents := (mapLookup fs1.files p).getD []
      let serialized := try_to_vec value
      if contents.length ≠ serialized.length then
        if fs1.writeFails then .err "failed to write" c1 fs1
        else
          .ok () c1
            { fs1 with
              files := mapInsert fs1.files p
                (serialized ++ contents.drop serialized.length) }
      else .ok () c1 fs1

/-- `CompiledContractCache::get` for `ContractCache` (the persistent get): a
memory hit is returned directly; otherwise, when the per-key file exists, its
contents are read, deserialized (a deserialization failure propagates as an
error via the question-mark operator), promoted into the in-memory mapping
and returned; otherwise the result is `none`. -/
def ContractCache.get_persistent (env : Env) (c : ContractCache) (fs : Fs)
    (key : Key) : CacheResult (Option CompiledContract) :=
  match mapLookup c.data key with
  | some v => .ok (some v) c fs
  | none =>
    match ContractCache.file_exists env fs key with
    | .panicked m => .panicked m
    | .ok found =>
      if found then
        match ContractCache.open_file env fs key with
        | .panicked m => .panicked m
        | .err e => .err e c fs
        | .ok p fs1 =>
          if fs1.readFails then .err "failed to read" c fs1
          else
            let contents := (mapLookup fs1.files p).getD []
            match try_from_slice contents with
            | .error e => .err e c fs1
            | .ok value => .ok (some value) { data := mapInsert c.data key value } fs1
      else .ok none c fs

theorem file_exists_eq (env : Env) (fs : Fs) (key : Key) (p : String)
    (hp : ContractCache.get_path env key = .ok p) :
    ContractCache.file_exists env fs key = .ok ((mapLookup fs.files p).isSome) := by
  unfold ContractCache.file_exists
  rw [hp]

theorem open_file_present_eq (env : Env) (fs : Fs) (key : Key) (p : String)
    (b : List Nat) (hp : ContractCache.get_path env key = .ok p)
    (hdc : fs.dirCreateFails = false) (ho : fs.openFails = false)
    (hfile : mapLookup fs.files p = some b) :
    ContractCache.open_file env fs key = .ok p fs := by
  simp [ContractCache.open_file, hp, hdc, ho, hfile]

theorem open_file_absent_eq (env : Env) (fs : Fs) (key : Key) (p : String)
    (hp : ContractCache.get_path env key = .ok p)
    (hdc : fs.dirCreateFails = false) (ho : fs.openFails = false)
    (hfile : mapLookup fs.files p = none) :
    ContractCache.open_file env fs key
      = .ok p { fs with files := mapInsert fs.files p [] } := by
  simp [ContractCache.open_file, hp, hdc, ho, hfile]

theorem open_file_dirfail_eq (env : Env) (fs : Fs) (key : Key) (p : String)
    (hp : ContractCache.get_path env key = .ok p)
    (hdc : fs.dirCreateFails = true) :
    ContractCache.open_file env fs key
      = .panicked "called Result unwrap on an Err value" := by
  simp [ContractCache.open_file, hp, hdc]

theorem open_file_openfail_eq (env : Env) (fs : Fs) (key : Key) (p : String)
    (hp : ContractCache.get_path env key = .ok p)
    (hdc : fs.dirCreateFails = false) (ho : fs.openFails = true) :
    ContractCache.open_file env fs key = .err "failed to open file" := by
  simp [ContractCache.open_file, hp, hdc, ho]

/-- Claim C9 (counterexample): computing the per-key file path DOES read the
`CARGO_MANIFEST_DIR` build-tool environment variable of the ambient process —
two processes differing only in that variable compute different paths for the
same key, refuting the claim that the path computation never reads a
build-tool environment variable (and the cache constructor takes no root
directory at all). -/
theorem get_path_reads_env_counterexample :
    ContractCache.get_path [("CARGO_MANIFEST_DIR", "a")] [0]
      ≠ ContractCache.get_path [("CARGO_MANIFEST_DIR", "b")] [0] := by
  decide

/-- Claim C9 (amended): the cache root is not injected at construction; the
per-key path is recomputed on every call as
`CARGO_MANIFEST_DIR/target/contract_cache/<base-58 key>` from the ambient
process environment, and the computation panics (`unwrap`) when the variable
is unset. -/
theorem get_path_spec (env : Env) (key : Key) :
    (∀ dir, mapLookup env "CARGO_MANIFEST_DIR" = some dir →
      ContractCache.get_path env key
        = .ok (dir ++ "/target/contract_cache" ++ "/" ++ key_to_b58 key))
    ∧ (mapLookup env "CARGO_MANIFEST_DIR" = none →
      ContractCache.get_path env key
        = .panicked "called Result unwrap on an Err value") := by
  constructor
  · intro dir hdir
    unfold ContractCache.get_path ContractCache.path
    rw [hdir]
  · intro hnone
    unfold ContractCache.get_path ContractCache.path
    rw [hnone]

/-- Witness for `get_path_spec`: a concrete environment and key. -/
theorem get_path_spec_witness :
    ContractCache.get_path [("CARGO_MANIFEST_DIR", "m")] [0]
      = .ok ("m" ++ "/target/contract_cache" ++ "/" ++ key_to_b58 [0]) :=
  (get_path_spec [("CARGO_MANIFEST_DIR", "m")] [0]).1 "m" rfl

/-- Claim C3 (code bug): the round trip `put(K, V)` then `get_persistent(K)`
on a fresh cache bound to the same directory fails when the per-key file
already held a different value whose serialization has the same length: `put`
skips the file write (its change check compares only lengths), so the fresh
cache deserializes the stale value.  Concretely, with the file holding the
serialization of `[5]` and `put` called with `[6]`, a fresh cache's
`get_persistent` returns `[5]`. -/
theorem put_get_persistent_equal_length_bug :
    ContractCache.put [("CARGO_MANIFEST_DIR", "m")] { data := [] }
        { files := [("m/target/contract_cache/0", [1, 5])] } [0] [6]
      = .ok () { data := [([0], [6])] }
          { files := [("m/target/contract_cache/0", [1, 5])] }
    ∧ ContractCache.get_persistent [("CARGO_MANIFEST_DIR", "m")] { data := [] }
        { files := [("m/target/contract_cache/0", [1, 5])] } [0]
      = .ok (some [5]) { data := [([0], [5])] }
          { files := [("m/target/contract_cache/0", [1, 5])] }
    ∧ ([5] : CompiledContract) ≠ [6] := by
  refine ⟨by decide, by decide, by decide⟩

/-- Claim C4 (counterexample): a file-open failure inside `put` is not
reported to the caller as a typed error — the source calls
`.expect("File failed to open")` on the open result, so it panics. -/
theorem put_open_failure_panics :
    ContractCache.put [("CARGO_MANIFEST_DIR", "m")] { data := [] }
        { files := [], openFails := true } [0] [7]
      = .panicked "File failed to open" := by
  decide

/-- Claim C4 (amended): `put` writes the value through into the in-memory
mapping, ensures the cache directory exists, opens the per-key file (creating
it if absent), and writes the serialized value — from offset zero, without
truncating — if and only if the file's current length differs from the
serialization's length; metadata and write errors are reported to the caller
as typed errors, but a directory-creation failure or a file-open failure
panics (`unwrap` / `expect`) instead of being returned. -/
theorem put_spec (env : Env) (c : ContractCache) (fs : Fs) (key : Key)
    (value : CompiledContract) (p : String)
    (hp : ContractCache.get_path env key = .ok p) :
    (fs.dirCreateFails = true →
      ContractCache.put env c fs key value
        = .panicked "called Result unwrap on an Err value")
    ∧ (fs.dirCreateFails = false → fs.openFails = true →
      ContractCache.put env c fs key value = .panicked "File failed to open")
    ∧ (∀ b, fs.dirCreateFails = false → fs.openFails = false →
      fs.metadataFails = true → mapLookup fs.files p = some b →
      ContractCache.put env c fs key value
        = .err "failed to read metadata" { data := mapInsert c.data key value } fs)
    ∧ (∀ b, fs.dirCreateFails = false → fs.openFails = false →
      fs.metadataFails = false → mapLookup fs.files p = some b →
      b.length = (try_to_vec value).length →
      ContractCache.put env c fs key value
        = .ok () { data := mapInsert c.data key value } fs)
    ∧ (∀ b, fs.dirCreateFails = false → fs.openFails = false →
      fs.metadataFails = false → fs.writeFails = false →
      mapLookup fs.files p = some b → b.length ≠ (try_to_vec value).length →
      ContractCache.put env c fs key value
        = .ok () { data := mapInsert c.data key value }
            { fs with
              files := mapInsert fs.files p
                (try_to_vec value ++ b.drop (try_to_vec value).length) })
    ∧ (fs.dirCreateFails = false → fs.openFails = false →
      fs.metadataFails = false → fs.writeFails = false →
      mapLookup fs.files p = none →
      ContractCache.put env c fs key value
        = .ok () { data := mapInsert c.data key value }
            { fs with
              files := mapInsert (mapInsert fs.files p []) p (try_to_vec value) }) := by
  refine ⟨?_, ?_, ?_, ?_, ?_, ?_⟩
  · intro hdc
    simp [ContractCache.put, open_file_dirfail_eq env fs key p hp hdc]
  · intro hdc ho
    simp [ContractCache.put, open_file_openfail_eq env fs key p hp hdc ho]
  · intro b hdc ho hm hb
    simp [ContractCache.put, open_file_present_eq env fs key p b hp hdc ho hb, hm]
  · intro b hdc ho hm hb hlen
    simp [ContractCache.put, open_file_present_eq env fs key p b hp hdc ho hb, hm,
      hb, hlen]
  · intro b hdc ho hm hw hb hlen
    simp [ContractCache.put, open_file_present_eq env fs key p b hp hdc ho hb, hm,
      hw, hb, hlen]
  · intro hdc ho hm hw hb
    simp [ContractCache.put, open_file_absent_eq env fs key p hp hdc ho hb, hm,
      hw, hb, mapLookup_mapInsert_self, try_to_vec]

/-- Claim C6: `get_persistent` returns the in-memory value on a memory hit;
otherwise, when the per-key file exists, it reads and deserializes the file,
promotes the value into the in-memory mapping and returns it, and a
deserialization failure is returned to the caller as an error, never as a
"not found"; when the file does not exist either, it returns `none`. -/
theorem get_persistent_spec (env : Env) (c : ContractCache) (fs : Fs) (key : Key)
    (p : String) (hp : ContractCache.get_path env key = .ok p)
    (hdc : fs.dirCreateFails = false) (ho : fs.openFails = false)
    (hr : fs.readFails = false) :
    (∀ v, mapLookup c.data key = some v →
      ContractCache.get_persistent env c fs key = .ok (some v) c fs)
    ∧ (∀ b v, mapLookup c.data key = none → mapLookup fs.files p = some b →
      try_from_slice b = .ok v →
      ContractCache.get_persistent env c fs key
        = .ok (some v) { data := mapInsert c.data key v } fs)
    ∧ (∀ b e, mapLookup c.data key = none → mapLookup fs.files p = some b →
      try_from_slice b = .error e →
      ContractCache.get_persistent env c fs key = .err e c fs)
    ∧ (mapLookup c.data key = none → mapLookup fs.files p = none →
      ContractCache.get_persistent env c fs key = .ok none c fs) := by
  refine ⟨?_, ?_, ?_, ?_⟩
  · intro v hv
    simp [ContractCache.get_persistent, hv]
  · intro b v hnone hfile hdes
    simp [ContractCache.get_persistent, hnone, file_exists_eq env fs key p hp,
      hfile, open_file_present_eq env fs key p b hp hdc ho hfile, hr, hdes]
  · intro b e hnone hfile hdes
    simp [ContractCache.get_persistent, hnone, file_exists_eq env fs key p hp,
      hfile, open_file_present_eq env fs key p b hp hdc ho hfile, hr, hdes]
  · intro hnone hfile
    simp [ContractCache.get_persistent, hnone, file_exists_eq env fs key p hp, hfile]

/-- Witness for `put_spec`: a concrete `put` whose directory creation fails
panics via `unwrap`. -/
theorem put_spec_witness :
    ContractCache.put [("CARGO_MANIFEST_DIR", "m")] { data := [] }
        { files := [], dirCreateFails := true } [0] [7]
      = .panicked "called Result unwrap on an Err value" :=
  (put_spec [("CARGO_MANIFEST_DIR", "m")] { data := [] }
      { files := [], dirCreateFails := true } [0] [7]
      "m/target/contract_cache/0" rfl).1 rfl

/-- Witness for `get_persistent_spec`: a concrete memory miss that promotes
the on-disk value `[8, 9]` into the in-memory mapping. -/
theorem get_persistent_spec_witness :
    ContractCache.get_persistent [("CARGO_MANIFEST_DIR", "m")] { data := [] }
        { files := [("m/target/contract_cache/0", [2, 8, 9])] } [0]
      = .ok (some [8, 9]) { data := [([0], [8, 9])] }
          { files := [("m/target/contract_cache/0", [2, 8, 9])] } :=
  (get_persistent_spec [("CARGO_MANIFEST_DIR", "m")] { data := [] }
      { files := [("m/target/contract_cache/0", [2, 8, 9])] } [0]
      "m/target/contract_cache/0" rfl rfl rfl rfl).2.1 [2, 8, 9] [8, 9] rfl rfl rfl

/-! ## The standalone runtime (`runtime.rs`)

The Engine (`near_runtime::Runtime::apply`) and the Store's trie are external
collaborators.  The Engine is a parameter: a function of the data the
orchestrator passes it — current state root, pending receipts and the
transaction batch — returning outgoing receipts, outcomes, a new state root
and a trie delta, or a `RuntimeError`.  The Store is a map from state root to
the trie (an account map) committed under that root. -/

abbrev Trie := List (AccountId × Account)

abbrev Store := List (CryptoHash × Trie)

/-- The Engine's `ApplyResult` as read by `produce_block`: outgoing receipts,
outcomes with their ids, the resulting state root, and the trie delta to
commit. -/
structure ApplyResult where
  outgoingReceipts : List Receipt
  outcomes : List (CryptoHash × ExecutionOutcome)
  stateRoot : CryptoHash
  trieChanges : Trie
deriving Repr

/-- The external Engine: `Runtime::apply` restricted to the arguments the
orchestrator computes from its own state. -/
abbrev Engine :=
  CryptoHash → List Receipt → List SignedTransaction → Except RuntimeError ApplyResult

/-- `RuntimeStandalone`'s mutable state.  The `tries`/`runtime`/
`epoch_info_provider`/`cache` handles are external collaborators; the trie
store is modelled by `store`. -/
structure RuntimeStandalone where
  genesis : GenesisConfig
  txPool : List SignedTransaction
  transactions : List (CryptoHash × SignedTransaction)
  outcomes : List (CryptoHash × ExecutionOutcome)
  profile : List (CryptoHash × Nat)
  curBlock : Block
  store : Store
  pendingReceipts : List Receipt
  lastOutcomes : List CryptoHash

/-- `RuntimeStandalone::new`: a fresh runtime whose genesis block carries the
state root produced by the external `apply_genesis_state` (a parameter here,
together with the genesis trie committed under it). -/
def RuntimeStandalone.new (genesis : GenesisConfig) (genesisRoot : CryptoHash)
    (genesisTrie : Trie) : RuntimeStandalone :=
  { genesis := genesis
    txPool := []
    transactions := []
    outcomes := []
    profile := []
    curBlock := (Block.genesis genesis).withStateRoot genesisRoot
    store := [(genesisRoot, genesisTrie)]
    pendingReceipts := []
    lastOutcomes := [] }

/-- `Self::prepare_transactions`: drains one transaction per pool lane into
the batch.  The pool's lane policy is external; it is modelled with each
pooled transaction in its own lane, so one call drains the whole pool.
Returns the batch and the remaining pool. -/
def prepare_transactions (pool : List SignedTransaction) :
    List SignedTransaction × List SignedTransaction :=
  (pool, [])

/-- The `for_each` over `apply_result.outcomes` in `produce_block`: push each
outcome id onto `last_outcomes`, record the outcome under its id, and index
the profile when the metadata is `V2`. -/
def recordOutcomes : List (CryptoHash × ExecutionOutcome) → RuntimeStandalone →
    RuntimeStandalone
  | [], s => s
  | (oid, o) :: rest, s =>
    recordOutcomes rest
      { s with
        lastOutcomes := s.lastOutcomes ++ [oid]
        outcomes := mapInsert s.outcomes oid o
        profile :=
          match o.metadata with
          | .v2 profileData => mapInsert s.profile oid profileData
          | .v1 => s.profile }

/-- Committing the Engine's trie delta through the Store
(`tries.apply_all` + `commit`): the new trie is the current root's trie with
the delta applied, committed under the Engine's reported state root. -/
def applyTrieChanges (t : Trie) (changes : Trie) : Trie :=
  changes.foldl (fun acc p => mapInsert acc p.1 p.2) t

/-- `RuntimeStandalone::produce_block`: invoke the Engine once with the
current state root, the pending receipts and the drained transaction batch;
replace the pending receipts with the outgoing ones; record every outcome;
commit the trie delta; and append a new current block via `Block::produce`.
An Engine error is returned to the caller unchanged. -/
def produce_block (engine : Engine) (s : RuntimeStandalone) :
    Except RuntimeError RuntimeStandalone :=
  match engine s.curBlock.stateRoot s.pendingReceipts
      (prepare_transactions s.txPool).1 with
  | .error e => .error e
  | .ok r =>
    let s1 := recordOutcomes r.outcomes
      { s with
        txPool := (prepare_transactions s.txPool).2
        pendingReceipts := r.outgoingReceipts }
    let newTrie :=
      applyTrieChanges ((mapLookup s.store s.curBlock.stateRoot).getD [])
        r.trieChanges
    .ok
      { s1 with
        store := mapInsert s1.store r.stateRoot newTrie
        curBlock :=
          s1.curBlock.produce r.stateRoot s.genesis.epochLength
            s.genesis.blockProdTime }

/-- Result of `resolve_tx`, which in Rust returns
`Result<(CryptoHash, ExecutionOutcome), RuntimeError>` but can also panic
(`unreachable!`).  `outOfFuel` is an artifact of bounding the source's
unbounded `loop` by fuel. -/
inductive ResolveResult where
  | ok (id : CryptoHash) (outcome : ExecutionOutcome)
  | engineErr (e : RuntimeError)
  | panicked (msg : String)
  | outOfFuel
deriving DecidableEq, Repr

/-- The `loop` of `resolve_tx`: produce a block, look the current key up in
the outcome map, re-key on `SuccessReceiptId`, return on `SuccessValue` or
`Failure`, panic via `unreachable!` on `Unknown` or when the outcome is
missing while no pending receipts remain, and otherwise keep producing
blocks. -/
def resolveTxLoop (engine : Engine) : Nat → CryptoHash → RuntimeStandalone →
    ResolveResult
  | 0, _, _ => .outOfFuel
  | fuel + 1, h, s =>
    match produce_block engine s with
    | .error e => .engineErr e
    | .ok s1 =>
      match mapLookup s1.outcomes h with
      | some o =>
        match o.status with
        | .unknown => .panicked "internal error: entered unreachable code"
        | .successReceiptId id => resolveTxLoop engine fuel id s1
        | .successValue _ => .ok h o
        | .failure _ => .ok h o
      | none =>
        if s1.pendingReceipts.isEmpty then .panicked "Lost an outcome"
        else resolveTxLoop engine fuel h s1

/-- `RuntimeStandalone::resolve_tx`: record the transaction, insert it into
the pool, clear `last_outcomes`, and run the loop keyed by the transaction's
hash. -/
def resolve_tx (engine : Engine) (fuel : Nat) (tx : SignedTransaction)
    (s : RuntimeStandalone) : ResolveResult :=
  resolveTxLoop engine fuel tx.hash
    { s with
      transactions := mapInsert s.transactions tx.hash tx
      txPool := s.txPool ++ [tx]
      lastOutcomes := [] }

/-- A fresh state root for `force_account_update`'s commit (the real Store
derives it from content; only freshness relative to the claims matters). -/
def freshRoot (store : Store) : CryptoHash :=
  (store.map (fun p => p.1)).foldl max 0 + 1

/-- `RuntimeStandalone::force_account_update`: open a trie update against the
current state root, write the account record, commit, and overwrite the
current block's state root with the new root — no block production, no
outcome, no receipt. -/
def force_account_update (s : RuntimeStandalone) (accountId : AccountId)
    (account : Account) : RuntimeStandalone :=
  let trie := (mapLookup s.store s.curBlock.stateRoot).getD []
  let newTrie := mapInsert trie accountId account
  let newRoot := freshRoot s.store
  { s with
    store := mapInsert s.store newRoot newTrie
    curBlock := s.curBlock.withStateRoot newRoot }

/-- `RuntimeStandalone::view_account`: a read-only lookup against the current
state root. -/
def view_account (s : RuntimeStandalone) (accountId : AccountId) : Option Account :=
  mapLookup ((mapLookup s.store s.curBlock.stateRoot).getD []) accountId

/-- The `ViewApplyState` assembled by `view_method_call` (note the source
passes the *state root* of the previous block as `prev_block_hash`, and the
current block's state root as `block_hash`). -/
structure ViewApplyState where
  blockHeight : BlockHeight
  prevBlockHash : CryptoHash
  epochHeight : EpochHeight
  blockTimestamp : Nat
  blockHash : CryptoHash
deriving DecidableEq, Repr

/-- A view call's raw result: return bytes and collected logs.  The
view-capable interpreter (`TrieViewer`) is external. -/
abbrev ViewResultData := List Nat × List String

abbrev Viewer := Trie → ViewApplyState → AccountId → String → List Nat → ViewResultData

/-- `RuntimeStandalone::view_method_call`: opens a trie update against the
current state root, builds a `ViewApplyState` from the current block —
unconditionally unwrapping the current block's predecessor reference, which
panics when the current block is the genesis block — and runs the external
view interpreter (`TrieViewer::call_function`). -/
def view_method_call (viewer : Viewer) (s : RuntimeStandalone)
    (accountId : AccountId) (methodName : String) (args : List Nat) :
    PureResult ViewResultData :=
  match s.curBlock.prevBlock with
  | none => .panicked "called Option unwrap on a None value"
  | some prev =>
    .ok
      (viewer ((mapLookup s.store s.curBlock.stateRoot).getD [])
        { blockHeight := s.curBlock.blockHeight
          prevBlockHash := prev.stateRoot
          epochHeight := s.curBlock.epochHeight
          blockTimestamp := s.curBlock.blockTimestamp
          blockHash := s.curBlock.stateRoot }
        accountId methodName args)

/-- `impl Drop for Block`, abstracted to the Arc strong counts of the chain of
ancestors: the list holds, oldest last, the strong count of each successive
ancestor reachable from the dropped block (head = its `prev_block`); count 1
means the chain itself holds the only reference, so `Arc::try_unwrap`
succeeds and the loop detaches that ancestor and continues.  On a count
greater than 1 `try_unwrap` fails, the loop's own reference is released
(count decremented) and the loop stops, leaving that ancestor and everything
behind it to the other holders.  Returns the number of detach iterations and
the remaining suffix. -/
def blockDropLoop : List Nat → Nat × List Nat
  | [] => (0, [])
  | c :: rest =>
    if c = 1 then ((blockDropLoop rest).1 + 1, (blockDropLoop rest).2)
    else (0, (c - 1) :: rest)

/-! ### Helper lemmas for the runtime theorems -/

theorem Block.withStateRoot_stateRoot (b : Block) (r : CryptoHash) :
    (b.withStateRoot r).stateRoot = r := by
  cases b
  rfl

theorem Block.withStateRoot_blockHeight (b : Block) (r : CryptoHash) :
    (b.withStateRoot r).blockHeight = b.blockHeight := by
  cases b
  rfl

theorem Block.withStateRoot_blockTimestamp (b : Block) (r : CryptoHash) :
    (b.withStateRoot r).blockTimestamp = b.blockTimestamp := by
  cases b
  rfl

theorem Block.withStateRoot_epochHeight (b : Block) (r : CryptoHash) :
    (b.withStateRoot r).epochHeight = b.epochHeight := by
  cases b
  rfl

theorem Block.withStateRoot_gasPrice (b : Block) (r : CryptoHash) :
    (b.withStateRoot r).gasPrice = b.gasPrice := by
  cases b
  rfl

theorem Block.withStateRoot_gasLimit (b : Block) (r : CryptoHash) :
    (b.withStateRoot r).gasLimit = b.gasLimit := by
  cases b
  rfl

theorem Block.produce_prevBlock (b : Block) (root epochLength blockProdTime : Nat) :
    (b.produce root epochLength blockProdTime).prevBlock = some b := rfl

theorem recordOutcomes_pendingReceipts (l : List (CryptoHash × ExecutionOutcome))
    (s : RuntimeStandalone) :
    (recordOutcomes l s).pendingReceipts = s.pendingReceipts := by
  induction l generalizing s with
  | nil => rfl
  | cons q rest ih =>
    obtain ⟨oid, o⟩ := q
    simp [recordOutcomes, ih]

theorem recordOutcomes_curBlock (l : List (CryptoHash × ExecutionOutcome))
    (s : RuntimeStandalone) :
    (recordOutcomes l s).curBlock = s.curBlock := by
  induction l generalizing s with
  | nil => rfl
  | cons q rest ih =>
    obtain ⟨oid, o⟩ := q
    simp [recordOutcomes, ih]

theorem recordOutcomes_lastOutcomes (l : List (CryptoHash × ExecutionOutcome))
    (s : RuntimeStandalone) :
    (recordOutcomes l s).lastOutcomes
      = s.lastOutcomes ++ l.map (fun q => q.1) := by
  induction l generalizing s with
  | nil => simp [recordOutcomes]
  | cons q rest ih =>
    obtain ⟨oid, o⟩ := q
    simp [recordOutcomes, ih]

theorem recordOutcomes_outcomes_notmem (l : List (CryptoHash × ExecutionOutcome))
    (s : RuntimeStandalone) (k : CryptoHash) (hk : k ∉ l.map (fun q => q.1)) :
    mapLookup (recordOutcomes l s).outcomes k = mapLookup s.outcomes k := by
  induction l generalizing s with
  | nil => rfl
  | cons q rest ih =>
    obtain ⟨oid, o⟩ := q
    simp only [List.map_cons, List.mem_cons] at hk
    push_neg at hk
    rw [recordOutcomes, ih _ hk.2]
    exact mapLookup_mapInsert_ne s.outcomes oid k o hk.1

theorem recordOutcomes_profile_notmem (l : List (CryptoHash × ExecutionOutcome))
    (s : RuntimeStandalone) (k : CryptoHash) (hk : k ∉ l.map (fun q => q.1)) :
    mapLookup (recordOutcomes l s).profile k = mapLookup s.profile k := by
  induction l generalizing s with
  | nil => rfl
  | cons q rest ih =>
    obtain ⟨oid, o⟩ := q
    simp only [List.map_cons, List.mem_cons] at hk
    push_neg at hk
    rw [recordOutcomes, ih _ hk.2]
    cases hm : o.metadata with
    | v1 => simp [hm]
    | v2 profileData =>
      simp only [hm]
      exact mapLookup_mapInsert_ne s.profile oid k profileData hk.1

theorem recordOutcomes_outcomes_mem (l : List (CryptoHash × ExecutionOutcome))
    (s : RuntimeStandalone) (oid : CryptoHash) (o : ExecutionOutcome)
    (hmem : (oid, o) ∈ l) (hnd : (l.map (fun q => q.1)).Nodup) :
    mapLookup (recordOutcomes l s).outcomes oid = some o := by
  induction l generalizing s with
  | nil => cases hmem
  | cons q rest ih =>
    obtain ⟨k1, o1⟩ := q
    simp only [List.map_cons, List.nodup_cons] at hnd
    rcases List.mem_cons.mp hmem with heq | hmem2
    · injection heq with h1 h2
      subst h1
      subst h2
      rw [recordOutcomes, recordOutcomes_outcomes_notmem rest _ oid hnd.1]
      exact mapLookup_mapInsert_self s.outcomes oid o
    · exact ih _ hmem2 hnd.2

/-- The profile entry an outcome gives rise to: its profiling data when the
metadata is `V2`, nothing when it is `V1`. -/
def profileEntry (o : ExecutionOutcome) : Option Nat :=
  match o.metadata with
  | .v2 profileData => some profileData
  | .v1 => none

theorem recordOutcomes_profile_mem (l : List (CryptoHash × ExecutionOutcome))
    (s : RuntimeStandalone) (oid : CryptoHash) (o : ExecutionOutcome)
    (hmem : (oid, o) ∈ l) (hnd : (l.map (fun q => q.1)).Nodup)
    (hfresh : mapLookup s.profile oid = none) :
    mapLookup (recordOutcomes l s).profile oid = profileEntry o := by
  induction l generalizing s with
  | nil => cases hmem
  | cons q rest ih =>
    obtain ⟨k1, o1⟩ := q
    simp only [List.map_cons, List.nodup_cons] at hnd
    rcases List.mem_cons.mp hmem with heq | hmem2
    · injection heq with h1 h2
      subst h1
      subst h2
      rw [recordOutcomes, recordOutcomes_profile_notmem rest _ oid hnd.1]
      cases hm : o.metadata with
      | v1 => simp [profileEntry, hm, hfresh]
      | v2 profileData =>
        simp only [hm, profileEntry]
        exact mapLookup_mapInsert_self s.profile oid profileData
    · have hne : oid ≠ k1 := by
        intro hcontra
        exact hnd.1 (hcontra ▸ (List.mem_map.mpr ⟨(oid, o), hmem2, rfl⟩))
      refine ih _ hmem2 hnd.2 ?_
      cases hm : o1.metadata with
      | v1 => simpa [hm] using hfresh
      | v2 profileData =>
        simp only [hm]
        rw [mapLookup_mapInsert_ne s.profile k1 oid profileData hne]
        exact hfresh

/-! ### Concrete instances used by the witnesses -/

/-- A concrete genesis configuration (the defaults of `GenesisConfig`). -/
def testGenesisConfig : GenesisConfig :=
  { genesisTime := 0
    gasPrice := 100000000
    gasLimit := 300000000000000
    genesisHeight := 1
    epochLength := 3
    blockProdTime := 1000000000 }

/-- A concrete fresh runtime with an empty genesis trie under root 0. -/
def testRuntime : RuntimeStandalone := RuntimeStandalone.new testGenesisConfig 0 []

/-- A concrete Engine result with two outcomes: a terminal success carrying
V2 profiling metadata and a failure carrying V1 metadata. -/
def applyTwoOutcomes : ApplyResult :=
  { outgoingReceipts := [9]
    outcomes := [(4, { status := .successValue [1], metadata := .v2 77 }),
                 (6, { status := .failure 0, metadata := .v1 })]
    stateRoot := 1
    trieChanges := [] }

/-- A concrete Engine that always returns `applyTwoOutcomes`. -/
def engineTwoOutcomes : Engine := fun _ _ _ => .ok applyTwoOutcomes

/-- The runtime after one block produced by `engineTwoOutcomes`. -/
def afterOneBlock : RuntimeStandalone :=
  (produce_block engineTwoOutcomes testRuntime).toOption.getD testRuntime

/-- A concrete Engine that returns no outcomes and no outgoing receipts. -/
def engineEmpty : Engine := fun _ _ _ =>
  .ok { outgoingReceipts := [], outcomes := [], stateRoot := 0, trieChanges := [] }

/-! ### Claim theorems about the runtime -/

/-- Claim C5: after every successful `produce_block`, the pending-receipt
queue equals exactly the Engine's outgoing receipts for that block; every
outcome id the Engine returned in that block is a key of the outcome map
bound to that outcome, is appended (in order) to the last-outcomes list, and
its profile-index entry is exactly the profiling metadata the outcome
carries — present iff the metadata is `V2` (outcome ids are assumed fresh
and unrepeated, per the spec's "outcome ids are stable and never
reused"). -/
theorem produce_block_outcome_invariants (engine : Engine)
    (s s2 : RuntimeStandalone) (r : ApplyResult)
    (he : engine s.curBlock.stateRoot s.pendingReceipts
        (prepare_transactions s.txPool).1 = .ok r)
    (hp : produce_block engine s = .ok s2)
    (hnd : (r.outcomes.map (fun q => q.1)).Nodup)
    (hfresh : ∀ oid ∈ r.outcomes.map (fun q => q.1),
        mapLookup s.profile oid = none) :
    s2.pendingReceipts = r.outgoingReceipts
    ∧ s2.lastOutcomes = s.lastOutcomes ++ r.outcomes.map (fun q => q.1)
    ∧ (∀ q ∈ r.outcomes, mapLookup s2.outcomes q.1 = some q.2)
    ∧ (∀ q ∈ r.outcomes, mapLookup s2.profile q.1 = profileEntry q.2) := by
  unfold produce_block at hp
  rw [he] at hp
  simp only at hp
  injection hp with hs2
  subst hs2
  refine ⟨?_, ?_, ?_, ?_⟩
  · simp [recordOutcomes_pendingReceipts]
  · simp [recordOutcomes_lastOutcomes]
  · intro q hq
    simpa using recordOutcomes_outcomes_mem r.outcomes _ q.1 q.2 (by simpa using hq) hnd
  · intro q hq
    simpa using recordOutcomes_profile_mem r.outcomes
      { s with
        txPool := (prepare_transactions s.txPool).2
        pendingReceipts := r.outgoingReceipts }
      q.1 q.2 (by simpa using hq) hnd
      (hfresh q.1 (List.mem_map.mpr ⟨q, hq, rfl⟩))

/-- Witness for `produce_block_outcome_invariants`: a concrete block produced
by `engineTwoOutcomes` from `testRuntime`. -/
theorem produce_block_outcome_invariants_witness :
    afterOneBlock.pendingReceipts = [9]
    ∧ mapLookup afterOneBlock.outcomes 4
        = some { status := .successValue [1], metadata := .v2 77 }
    ∧ mapLookup afterOneBlock.profile 6
        = profileEntry { status := .failure 0, metadata := .v1 } := by
  have h := produce_block_outcome_invariants engineTwoOutcomes testRuntime
    afterOneBlock applyTwoOutcomes rfl rfl (by decide) (by decide)
  exact ⟨h.1, h.2.2.1 (4, { status := .successValue [1], metadata := .v2 77 })
      (by decide),
    h.2.2.2 (6, { status := .failure 0, metadata := .v1 }) (by decide)⟩

/-- Claim C7: `force_account_update` commits the account record against the
current state root and overwrites only the current block's state root — the
current block's height, timestamp, epoch height, gas price and gas limit, the
outcome map, the profile index, the last-outcomes list, the pending-receipt
queue, the transaction pool and the transaction record are all unchanged, no
outcome and no receipt is produced, and an immediately following
`view_account` returns the written account. -/
theorem force_account_update_frame (s : RuntimeStandalone)
    (accountId : AccountId) (account : Account) :
    (force_account_update s accountId account).curBlock.blockHeight
        = s.curBlock.blockHeight
    ∧ (force_account_update s accountId account).curBlock.blockTimestamp
        = s.curBlock.blockTimestamp
    ∧ (force_account_update s accountId account).curBlock.epochHeight
        = s.curBlock.epochHeight
    ∧ (force_account_update s accountId account).curBlock.gasPrice
        = s.curBlock.gasPrice
    ∧ (force_account_update s accountId account).curBlock.gasLimit
        = s.curBlock.gasLimit
    ∧ (force_account_update s accountId account).outcomes = s.outcomes
    ∧ (force_account_update s accountId account).profile = s.profile
    ∧ (force_account_update s accountId account).lastOutcomes = s.lastOutcomes
    ∧ (force_account_update s accountId account).pendingReceipts
        = s.pendingReceipts
    ∧ (force_account_update s accountId account).txPool = s.txPool
    ∧ (force_account_update s accountId account).transactions = s.transactions
    ∧ view_account (force_account_update s accountId account) accountId
        = some account := by
  refine ⟨?_, ?_, ?_, ?_, ?_, rfl, rfl, rfl, rfl, rfl, rfl, ?_⟩
  · exact Block.withStateRoot_blockHeight s.curBlock (freshRoot s.store)
  · exact Block.withStateRoot_blockTimestamp s.curBlock (freshRoot s.store)
  · exact Block.withStateRoot_epochHeight s.curBlock (freshRoot s.store)
  · exact Block.withStateRoot_gasPrice s.curBlock (freshRoot s.store)
  · exact Block.withStateRoot_gasLimit s.curBlock (freshRoot s.store)
  · unfold view_account force_account_update
    simp only [Block.withStateRoot_stateRoot, mapLookup_mapInsert_self,
      Option.getD_some]

/-- Claim C8: the teardown of a block chain, as performed by the explicit
loop in `impl Drop for Block`, is iterative and bounded — it performs at most
one detach step per ancestor for every finite chain, fully clears a chain
whose ancestors are all uniquely owned (so tens of thousands of blocks are
released in as many loop iterations, with no unbounded recursion), and stops
at the first ancestor still shared by another live handle, leaving it and its
own ancestors intact (with the loop's reference released). -/
theorem block_drop_iterative :
    (∀ chain : List Nat, (blockDropLoop chain).1 ≤ chain.length)
    ∧ (∀ n : Nat, blockDropLoop (List.replicate n 1) = (n, []))
    ∧ (∀ (k c : Nat) (rest : List Nat),
        blockDropLoop (List.replicate k 1 ++ (c + 2) :: rest)
          = (k, (c + 1) :: rest)) := by
  refine ⟨?_, ?_, ?_⟩
  · intro chain
    induction chain with
    | nil => simp [blockDropLoop]
    | cons c rest ih =>
      by_cases hc : c = 1
      · simpa [blockDropLoop, hc] using Nat.succ_le_succ ih
      · simp [blockDropLoop, hc]
  · intro n
    induction n with
    | zero => rfl
    | succ n ih => simp [List.replicate, blockDropLoop, ih]
  · intro k c rest
    induction k with
    | zero => simp [blockDropLoop]
    | succ k ih => simp [List.replicate, blockDropLoop, ih]

/-- Claim C10: `view_method_call` unconditionally unwraps the current block's
predecessor reference, so calling it while the current block is still the
genesis block (before any successful `produce_block`) panics; after any
successful `produce_block` the current block has a predecessor, so that
unwrap cannot panic. -/
theorem view_method_call_genesis_panics (viewer : Viewer) (cfg : GenesisConfig)
    (genesisRoot : CryptoHash) (genesisTrie : Trie) (accountId : AccountId)
    (methodName : String) (args : List Nat) :
    view_method_call viewer (RuntimeStandalone.new cfg genesisRoot genesisTrie)
        accountId methodName args
      = .panicked "called Option unwrap on a None value"
    ∧ (∀ (engine : Engine) (s s1 : RuntimeStandalone),
        produce_block engine s = .ok s1 →
        s1.curBlock.prevBlock.isSome = true
        ∧ view_method_call viewer s1 accountId methodName args
            ≠ .panicked "called Option unwrap on a None value") := by
  constructor
  · rfl
  · intro engine s s1 hp
    unfold produce_block at hp
    cases he : engine s.curBlock.stateRoot s.pendingReceipts
        (prepare_transactions s.txPool).1 with
    | error e =>
      rw [he] at hp
      simp at hp
    | ok r =>
      rw [he] at hp
      simp only at hp
      injection hp with hs1
      subst hs1
      constructor
      · simp [Block.produce_prevBlock]
      · simp [view_method_call, Block.produce_prevBlock]

/-- Witness for `view_method_call_genesis_panics`: the fresh `testRuntime`
panics on a view call, and one concrete produced block has a predecessor. -/
theorem view_method_call_genesis_panics_witness :
    view_method_call (fun _ _ _ _ _ => ([], [])) testRuntime "a" "m" []
      = .panicked "called Option unwrap on a None value"
    ∧ afterOneBlock.curBlock.prevBlock.isSome = true :=
  ⟨(view_method_call_genesis_panics (fun _ _ _ _ _ => ([], [])) testGenesisConfig
      0 [] "a" "m" []).1,
   ((view_method_call_genesis_panics (fun _ _ _ _ _ => ([], [])) testGenesisConfig
      0 [] "a" "m" []).2 engineTwoOutcomes testRuntime afterOneBlock rfl).1⟩

/-- Claim C1 (counterexample): when the Engine returns no outcome for the
looked-up hash and leaves no pending receipts, `resolve_tx` does not return a
typed harness-fatal result — it panics (the source's
`unreachable!("Lost an outcome ...")`). -/
theorem resolve_tx_lost_outcome_panics :
    resolve_tx engineEmpty 1 { hash := 7 } testRuntime
      = .panicked "Lost an outcome" := by
  rfl

/-- Claim C1 (amended): `resolve_tx` records the transaction, inserts it into
the pool and clears the last-outcomes list, then repeatedly calls
`produce_block`; after each produced block it re-keys the lookup to the new
receipt id when the current outcome's status is `SuccessReceiptId`, returns
the current key and outcome exactly when the status is `SuccessValue` or
`Failure` (any `ok` result carries a terminal status), and keeps producing
blocks when the outcome is missing but receipts are pending — but when no
outcome exists for the current key and the pending-receipt queue is empty it
panics via `unreachable!` ("Lost an outcome"), a harness abort that is not
delivered as a typed result. -/
theorem resolve_tx_spec (engine : Engine) (fuel : Nat) (h : CryptoHash)
    (s s1 : RuntimeStandalone) (hp : produce_block engine s = .ok s1) :
    (∀ (tx : SignedTransaction) (s0 : RuntimeStandalone),
      resolve_tx engine fuel tx s0 = resolveTxLoop engine fuel tx.hash
        { s0 with
          transactions := mapInsert s0.transactions tx.hash tx
          txPool := s0.txPool ++ [tx]
          lastOutcomes := [] })
    ∧ (∀ o id, mapLookup s1.outcomes h = some o →
        o.status = .successReceiptId id →
        resolveTxLoop engine (fuel + 1) h s = resolveTxLoop engine fuel id s1)
    ∧ (∀ o, mapLookup s1.outcomes h = some o →
        ((∃ v, o.status = .successValue v) ∨ (∃ e, o.status = .failure e)) →
        resolveTxLoop engine (fuel + 1) h s = .ok h o)
    ∧ (mapLookup s1.outcomes h = none → s1.pendingReceipts ≠ [] →
        resolveTxLoop engine (fuel + 1) h s = resolveTxLoop engine fuel h s1)
    ∧ (mapLookup s1.outcomes h = none → s1.pendingReceipts = [] →
        resolveTxLoop engine (fuel + 1) h s = .panicked "Lost an outcome")
    ∧ (∀ (f : Nat) (k : CryptoHash) (st : RuntimeStandalone) (id : CryptoHash)
        (o : ExecutionOutcome),
        resolveTxLoop engine f k st = .ok id o →
        (∃ v, o.status = .successValue v) ∨ (∃ e, o.status = .failure e)) := by
  refine ⟨fun tx s0 => rfl, ?_, ?_, ?_, ?_, ?_⟩
  · intro o id ho hst
    rw [resolveTxLoop, hp]
    simp only [ho, hst]
  · intro o ho hterm
    rcases hterm with ⟨v, hst⟩ | ⟨e, hst⟩
    · rw [resolveTxLoop, hp]
      simp only [ho, hst]
    · rw [resolveTxLoop, hp]
      simp only [ho, hst]
  · intro ho hne
    rw [resolveTxLoop, hp]
    simp only [ho]
    simp [List.isEmpty_iff, hne]
  · intro ho hemp
    rw [resolveTxLoop, hp]
    simp only [ho]
    simp [hemp]
  · intro f
    induction f with
    | zero =>
      intro k st id o hres
      simp [resolveTxLoop] at hres
    | succ f ih =>
      intro k st id o hres
      rw [resolveTxLoop] at hres
      cases hE : produce_block engine st with
      | error e =>
        rw [hE] at hres
        simp at hres
      | ok s2 =>
        rw [hE] at hres
        simp only at hres
        cases hL : mapLookup s2.outcomes k with
        | none =>
          rw [hL] at hres
          simp only at hres
          by_cases hemp : s2.pendingReceipts.isEmpty
          · simp [hemp] at hres
          · simp only [hemp, if_false] at hres
            exact ih k s2 id o hres
        | some o2 =>
          rw [hL] at hres
          simp only at hres
          cases hst : o2.status with
          | unknown =>
            rw [hst] at hres
            simp at hres
          | successReceiptId rid =>
            rw [hst] at hres
            exact ih rid s2 id o hres
          | successValue v =>
            rw [hst] at hres
            simp only [ResolveResult.ok.injEq] at hres
            exact Or.inl ⟨v, hres.2 ▸ hst⟩
          | failure e =>
            rw [hst] at hres
            simp only [ResolveResult.ok.injEq] at hres
            exact Or.inr ⟨e, hres.2 ▸ hst⟩

/-- Witness for `resolve_tx_spec`: the loop keyed by hash 4 on the concrete
engine returns the terminal success outcome in one produced block. -/
theorem resolve_tx_spec_witness :
    resolveTxLoop engineTwoOutcomes 1 4 testRuntime
      = .ok 4 { status := .successValue [1], metadata := .v2 77 } :=
  (resolve_tx_spec engineTwoOutcomes 0 4 testRuntime afterOneBlock rfl).2.2.1
    { status := .successValue [1], metadata := .v2 77 } rfl (Or.inl ⟨[1], rfl⟩)
